import Mathlib

/-
Verification of the log-generator benchmark wrapper
(snafu/log_generator_wrapper/trigger_log_generator.py).

The Python class Trigger_log_generator is shallowly embedded below.
Wall-clock readings, the random payload, the boto3 CloudWatch client, the
curl subprocess and the JSON decoder are external effects; each is passed
in as an explicit oracle argument, while every piece of control flow and
arithmetic of the Python source is translated literally.  Times are exact
rationals, counts are natural numbers, and the Python int() truncation is
the function pyInt.  Loops are written with an explicit fuel argument; a
result of none means the fuel ran out, which is a model artifact and is
excluded by a fuel hypothesis in the theorems.
-/

namespace LogGenerator

/-- Python truthiness of an optional string: None and the empty string are
falsy. -/
def truthyStr : Option String → Bool
  | none => false
  | some s => s != ""

/-- Python truthiness of an optional integer: None and 0 are falsy. -/
def truthyNat : Option Nat → Bool
  | none => false
  | some n => n != 0

/-- Python int() on a rational: truncation toward zero. -/
def pyInt (q : ℚ) : ℤ :=
  if 0 ≤ q.num then ((q.num.natAbs / q.den : Nat) : ℤ)
  else -((q.num.natAbs / q.den : Nat) : ℤ)

/-- The argparse namespace consumed by Trigger_log_generator.__init__
(lines 29 to 47 of trigger_log_generator.py). -/
structure Args where
  uuid : String
  cluster_name : String
  user : String
  size : Nat
  messages_per_minute : Option Nat
  messages_per_second : Option Nat
  duration : Nat
  pod_count : Nat
  pod_name : String
  timeout : ℚ
  cloudwatch_log_group : Option String
  aws_access_key : Option String
  aws_secret_key : Option String
  aws_region : Option String
  es_url : Option String
  es_token : Option String
  es_index : String
deriving DecidableEq

/-- The state of a constructed Trigger_log_generator: the copied argparse
fields together with the fields derived in __init__ (lines 48 to 59).
my_message stands for the random payload string; its generation is an
external effect, so the constructor takes it as an argument.
messages_per_second holds the value after the overwrite on line 50 or 53,
hence a rational. -/
structure Trigger where
  args : Args
  total_messages : Nat
  messages_per_second : ℚ
  delay : ℚ
  my_message : String
deriving DecidableEq

/-- Lines 48 to 57 of __init__: the Rate Planner.  When
messages_per_minute is truthy, total_messages = mpm * duration and the
per-second rate becomes mpm / 60; otherwise, when messages_per_second is
truthy, total_messages = mps * 60 * duration; otherwise the constructor
prints and calls exit(1), modeled as Except.error 1.  Line 57 sets
delay = 1 / messages_per_second in both successful branches. -/
def mkTrigger (args : Args) (my_message : String) : Except Nat Trigger :=
  if truthyNat args.messages_per_minute then
    let mpm := args.messages_per_minute.getD 0
    Except.ok
      { args := args
        total_messages := mpm * args.duration
        messages_per_second := (mpm : ℚ) / 60
        delay := 1 / ((mpm : ℚ) / 60)
        my_message := my_message }
  else if truthyNat args.messages_per_second then
    let mps := args.messages_per_second.getD 0
    Except.ok
      { args := args
        total_messages := mps * 60 * args.duration
        messages_per_second := (mps : ℚ)
        delay := 1 / (mps : ℚ)
        my_message := my_message }
  else
    Except.error 1

/-- The loop of _run_log_test (lines 100 to 115): while count is below
total, the per-minute branch emits one message and increments the count
by one, and the per-second branch emits a batch of step messages and
increments the count by step.  The emitted lines are accumulated in out;
the sleep calls only affect wall-clock time and are dropped.  Fuel bounds
the number of iterations; none means the fuel ran out. -/
def runLogTestAux (per_minute : Bool) (msg : String) (step total : Nat) :
    Nat → Nat → List String → Option (Nat × List String)
  | 0, _, _ => none
  | fuel + 1, count, out =>
    if count < total then
      if per_minute then
        runLogTestAux per_minute msg step total fuel (count + 1) (out ++ [msg])
      else
        runLogTestAux per_minute msg step total fuel (count + step)
          (out ++ List.replicate step msg)
    else
      some (count, out)

/-- _run_log_test of the trigger: the branch on self.messages_per_minute
selects the per-minute strategy; the per-second strategy emits
self.messages_per_second messages per batch (in per-second mode that
field still holds the integer argument, so the batch size is read from
the argparse value). -/
def run_log_test (t : Trigger) (fuel : Nat) : Option (Nat × List String) :=
  runLogTestAux (truthyNat t.args.messages_per_minute) t.my_message
    (t.args.messages_per_second.getD 0) t.total_messages fuel 0 []

/-- The CloudWatch Logs Insights query built by _check_cloudwatch
(lines 127 to 135): log group, padded window and query string. -/
structure CWQuery where
  logGroupName : String
  startTime : ℤ
  endTime : ℤ
  queryString : String
deriving DecidableEq

/-- Lines 127 to 135 of _check_cloudwatch: the query submitted via
start_query, with the 60 second padding on both window ends. -/
def cw_query (t : Trigger) (start_time end_time : ℤ) : CWQuery :=
  { logGroupName := t.args.cloudwatch_log_group.getD ""
    startTime := start_time - 60
    endTime := end_time + 60
    queryString :=
      "fields @timestamp, @message | filter message = \"" ++ t.my_message
        ++ "\" | stats count()" }

/-- The count request issued by _check_es (lines 153 to 192): target URL,
optional bearer-token header, the payload being matched and the padded,
formatted timestamp range of the bool query body. -/
structure ESRequest where
  url : String
  auth_header : Option String
  message : String
  range_gte : String
  range_lte : String
deriving DecidableEq

/-- Lines 153 to 192 of _check_es: the request sent through curl.  fmt
stands for datetime.datetime.fromtimestamp followed by strftime; the
padded epoch bounds start_time - 60 and end_time + 60 are passed through
it. -/
def es_request (t : Trigger) (fmt : ℤ → String) (start_time end_time : ℤ) :
    ESRequest :=
  { url := t.args.es_url.getD "" ++ "/" ++ t.args.es_index ++ "/_count"
    auth_header :=
      if truthyStr t.args.es_token then
        some ("Authorization: Bearer " ++ t.args.es_token.getD "")
      else none
    message := t.my_message
    range_gte := fmt (start_time - 60)
    range_lte := fmt (end_time + 60) }

/-- Lines 184 to 202 of _check_es: the curl subprocess is the oracle curl
(error means check_output raised), and json.loads followed by the count
lookup is the oracle parseCount (none means either step raised).  Both
except blocks return 0, so check_es is total. -/
def check_es (t : Trigger) (fmt : ℤ → String)
    (curl : ESRequest → Except Unit String) (parseCount : String → Option Nat)
    (start_time end_time : ℤ) : Nat :=
  match curl (es_request t fmt start_time end_time) with
  | Except.error _ => 0
  | Except.ok response =>
    match parseCount response with
    | none => 0
    | some c => c

/-- One backend query recorded during the confirmation phase. -/
inductive AdapterCall where
  | cw (q : CWQuery)
  | es (r : ESRequest)
deriving DecidableEq

/-- The uncaught Python exceptions the model distinguishes:
adapterError is any exception escaping _check_cloudwatch, which has no
try block (boto3 transport failure, missing statistics key); nameError is
the unbound local variable read after a confirmation loop whose body
never ran. -/
inductive PyExn where
  | adapterError
  | nameError
deriving DecidableEq

/-- How one pass of the confirmation loop ended: the
received_all_messages flag, the last (messages_received,
post_complete_time) pair if any iteration ran, the backend calls made,
the durations passed to sleep, and whether an adapter exception
escaped. -/
structure LoopExit where
  received : Bool
  last : Option (Nat × ℚ)
  calls : List AdapterCall
  sleeps : List ℚ
  exn : Bool
deriving DecidableEq

/-- The while loop of emit_actions (lines 221 to 235).  mc is
message_count, bound is end_time + timeout, tick k yields the backend
call of iteration k together with its outcome (Except.error when the
CloudWatch branch raised), sleepClock k is the time.time() reading after
the sleep of iteration k (line 231) and postClock k the reading on
line 232.  ct is current_time, last carries the values of
messages_received and post_complete_time from the previous iteration,
none when no iteration has run. -/
def confirmLoopAux (mc : Nat) (bound end_time : ℚ)
    (tick : Nat → AdapterCall × Except Unit Nat)
    (sleepClock postClock : Nat → ℚ) :
    Nat → Nat → ℚ → Option (Nat × ℚ) → List AdapterCall → List ℚ →
    Option LoopExit
  | 0, _, _, _, _, _ => none
  | fuel + 1, k, ct, last, calls, sleeps =>
    if ct ≤ bound then
      match tick k with
      | (call, Except.error _) =>
        some { received := false, last := last, calls := calls ++ [call]
               sleeps := sleeps, exn := true }
      | (call, Except.ok mr) =>
        if mr = mc then
          some { received := true
                 last := some (mr, postClock k - end_time)
                 calls := calls ++ [call], sleeps := sleeps, exn := false }
        else
          confirmLoopAux mc bound end_time tick sleepClock postClock fuel
            (k + 1) (sleepClock k) (some (mr, postClock k - end_time))
            (calls ++ [call]) (sleeps ++ [1])
    else
      some { received := false, last := last, calls := calls
             sleeps := sleeps, exn := false }

/-- The flat result dictionary data of emit_actions (lines 249 to 254):
the three confirmation entries are present exactly when a backend was
configured. -/
structure ResultData where
  timestamp : String
  actual_duration : ℤ
  message_count : Nat
  messages_confirmed_received : Option Bool
  messages_received : Option Nat
  post_complete_time : Option ℤ
deriving DecidableEq

/-- The document built by _json_payload (lines 61 to 89): the metadata
entries, the backend entries of whichever backend branch fired (none
when absent from the dictionary), and the merged result data. -/
structure Payload where
  uuid : String
  cluster_name : String
  pod_name : String
  expected_duration : Nat
  total_expected_messages : Nat
  messages_per_second : ℚ
  messages_per_minute : Option Nat
  message_size : Nat
  timeout : ℚ
  pod_count : Nat
  user : String
  cloudwatch_log_group : Option String
  es_url : Option String
  es_index : Option String
  backend : Option String
  data : ResultData
deriving DecidableEq

/-- _json_payload: the CloudWatch entries are added when
cloudwatch_log_group is truthy, else the ElasticSearch entries when
es_url is truthy; the dictionary update with the data argument is the
data field. -/
def json_payload (t : Trigger) (data : ResultData) : Payload :=
  { uuid := t.args.uuid
    cluster_name := t.args.cluster_name
    pod_name := t.args.pod_name
    expected_duration := t.args.duration * 60
    total_expected_messages := t.total_messages
    messages_per_second := t.messages_per_second
    messages_per_minute := t.args.messages_per_minute
    message_size := t.args.size
    timeout := t.args.timeout
    pod_count := t.args.pod_count
    user := t.args.user
    cloudwatch_log_group :=
      if truthyStr t.args.cloudwatch_log_group then t.args.cloudwatch_log_group
      else none
    es_url :=
      if truthyStr t.args.cloudwatch_log_group then none
      else if truthyStr t.args.es_url then t.args.es_url else none
    es_index :=
      if truthyStr t.args.cloudwatch_log_group then none
      else if truthyStr t.args.es_url then some t.args.es_index else none
    backend :=
      if truthyStr t.args.cloudwatch_log_group then some "cloudwatch"
      else if truthyStr t.args.es_url then some "elasticsearch" else none
    data := data }

/-- The external effects of one emit_actions run: the strftime timestamp,
the time.time() readings around emission (start_time, end_time), the
reading before the loop (clock0), the per-iteration readings, the
timestamp formatter of _check_es, the backend oracles and the fuel of
the two loops.  cwOracle k is the whole of _check_cloudwatch at
iteration k, from start_query to recordsMatched, with Except.error for
any raised exception; esCurl k and esParse are the curl and JSON oracles
of _check_es at iteration k. -/
structure EmitOracles where
  timestamp : String
  start_time : ℚ
  end_time : ℚ
  clock0 : ℚ
  sleepClock : Nat → ℚ
  postClock : Nat → ℚ
  fmt : ℤ → String
  cwOracle : Nat → CWQuery → Except Unit Nat
  esCurl : Nat → ESRequest → Except Unit String
  esParse : String → Option Nat
  emitFuel : Nat
  loopFuel : Nat

/-- Lines 222 to 225 of emit_actions: iteration k queries CloudWatch when
cloudwatch_log_group is truthy and ElasticSearch otherwise, both over the
truncated emission window int(start_time), int(end_time). -/
def adapterTick (t : Trigger) (o : EmitOracles) (k : Nat) :
    AdapterCall × Except Unit Nat :=
  let s := pyInt o.start_time
  let e := pyInt o.end_time
  if truthyStr t.args.cloudwatch_log_group then
    (AdapterCall.cw (cw_query t s e), o.cwOracle k (cw_query t s e))
  else
    (AdapterCall.es (es_request t o.fmt s e),
     Except.ok (check_es t o.fmt (o.esCurl k) o.esParse s e))

/-- What one emit_actions run produced: the emitted log lines, the
(payload, index) pairs yielded, the backend calls, the sleep durations of
the confirmation loop, and the uncaught exception if the run aborted
before its yield. -/
structure EmitResult where
  emissions : List String
  yields : List (Payload × String)
  calls : List AdapterCall
  sleeps : List ℚ
  exn : Option PyExn
deriving DecidableEq

/-- emit_actions (lines 204 to 258).  After _run_log_test, when a backend
is configured the confirmation loop runs from clock0 with no previous
iteration values; if it ends with an adapter exception the run aborts,
and if its body never ran the reads of messages_received and
message_confirmed_received after the loop raise NameError; otherwise the
single (payload, results) pair is yielded with the confirmation entries,
or without them when no backend is configured.  none means a fuel ran
out. -/
def emit_actions (t : Trigger) (o : EmitOracles) : Option EmitResult :=
  match run_log_test t o.emitFuel with
  | none => none
  | some (message_count, out) =>
    if truthyStr t.args.cloudwatch_log_group || truthyStr t.args.es_url then
      match confirmLoopAux message_count (o.end_time + t.args.timeout)
          o.end_time (adapterTick t o) o.sleepClock o.postClock o.loopFuel 0
          o.clock0 none [] [] with
      | none => none
      | some ex =>
        if ex.exn then
          some { emissions := out, yields := [], calls := ex.calls
                 sleeps := ex.sleeps, exn := some PyExn.adapterError }
        else
          match ex.last with
          | none =>
            some { emissions := out, yields := [], calls := ex.calls
                   sleeps := ex.sleeps, exn := some PyExn.nameError }
          | some (mr, pt) =>
            some { emissions := out
                   yields :=
                     [(json_payload t
                         { timestamp := o.timestamp
                           actual_duration := pyInt (o.end_time - o.start_time)
                           message_count := message_count
                           messages_confirmed_received := some ex.received
                           messages_received := some mr
                           post_complete_time := some (pyInt pt) }, "results")]
                   calls := ex.calls, sleeps := ex.sleeps, exn := none }
    else
      some { emissions := out
             yields :=
               [(json_payload t
                   { timestamp := o.timestamp
                     actual_duration := pyInt (o.end_time - o.start_time)
                     message_count := message_count
                     messages_confirmed_received := none
                     messages_received := none
                     post_complete_time := none }, "results")]
             calls := [], sleeps := [], exn := none }

/-- How a whole run ended: exited c is the exit(c) call of __init__, ran
is an emit_actions outcome. -/
inductive RunExit where
  | exited (code : Nat) (emissions : List String)
  | ran (r : EmitResult)
deriving DecidableEq

/-- The run as driven by run_snafu.process_generator: construct the
trigger, then iterate emit_actions.  The exit(1) branch fires inside the
constructor, before _run_log_test, so its emission list is empty. -/
def run_main (args : Args) (my_message : String) (o : EmitOracles) :
    Option RunExit :=
  match mkTrigger args my_message with
  | Except.error c => some (RunExit.exited c [])
  | Except.ok t => (emit_actions t o).map RunExit.ran

/-
Concrete instances used to evaluate the theorems on closed inputs.
-/

/-- A per-minute configuration: 2 messages per minute for 3 minutes, both
backends configured. -/
def argsPM : Args :=
  { uuid := "u", cluster_name := "c", user := "w", size := 3
    messages_per_minute := some 2, messages_per_second := none
    duration := 3, pod_count := 1, pod_name := "p", timeout := 5
    cloudwatch_log_group := some "grp", aws_access_key := none
    aws_secret_key := none, aws_region := some "r"
    es_url := some "http://es", es_token := none, es_index := "idx" }

/-- The trigger built from argsPM: 6 total messages. -/
def tPM : Trigger :=
  { args := argsPM
    total_messages := argsPM.messages_per_minute.getD 0 * argsPM.duration
    messages_per_second := ((argsPM.messages_per_minute.getD 0 : Nat) : ℚ) / 60
    delay := 1 / (((argsPM.messages_per_minute.getD 0 : Nat) : ℚ) / 60)
    my_message := "MSG" }

/-- A per-second configuration: 2 messages per second for 1 minute, only
the document-search backend configured. -/
def argsPS : Args :=
  { uuid := "u", cluster_name := "c", user := "w", size := 3
    messages_per_minute := none, messages_per_second := some 2
    duration := 1, pod_count := 1, pod_name := "p", timeout := 5
    cloudwatch_log_group := none, aws_access_key := none
    aws_secret_key := none, aws_region := none
    es_url := some "http://es", es_token := none, es_index := "idx" }

/-- The trigger built from argsPS: 120 total messages. -/
def tPS : Trigger :=
  { args := argsPS
    total_messages := argsPS.messages_per_second.getD 0 * 60 * argsPS.duration
    messages_per_second := ((argsPS.messages_per_second.getD 0 : Nat) : ℚ)
    delay := 1 / ((argsPS.messages_per_second.getD 0 : Nat) : ℚ)
    my_message := "MSG" }

/-- A configuration with no rate mode at all. -/
def argsNoRate : Args :=
  { uuid := "u", cluster_name := "c", user := "w", size := 3
    messages_per_minute := none, messages_per_second := none
    duration := 3, pod_count := 1, pod_name := "p", timeout := 5
    cloudwatch_log_group := some "grp", aws_access_key := none
    aws_secret_key := none, aws_region := some "r"
    es_url := none, es_token := none, es_index := "idx" }

/-- A per-minute configuration with no backend configured: the
cloudwatch_log_group argument is None and the es_url argument is the
empty string. -/
def argsNB : Args :=
  { uuid := "u", cluster_name := "c", user := "w", size := 3
    messages_per_minute := some 2, messages_per_second := none
    duration := 3, pod_count := 1, pod_name := "p", timeout := 5
    cloudwatch_log_group := none, aws_access_key := none
    aws_secret_key := none, aws_region := none
    es_url := some "", es_token := none, es_index := "idx" }

/-- The trigger built from argsNB. -/
def tNB : Trigger :=
  { args := argsNB
    total_messages := argsNB.messages_per_minute.getD 0 * argsNB.duration
    messages_per_second := ((argsNB.messages_per_minute.getD 0 : Nat) : ℚ) / 60
    delay := 1 / (((argsNB.messages_per_minute.getD 0 : Nat) : ℚ) / 60)
    my_message := "MSG" }

/-- Oracles on which every CloudWatch query raises: emission spans time
10 to 20, the loop starts at 21 and the bound is 25. -/
def oErr : EmitOracles :=
  { timestamp := "TS", start_time := 10, end_time := 20, clock0 := 21
    sleepClock := fun k => 22 + k, postClock := fun k => 23 + k
    fmt := fun _ => "F", cwOracle := fun _ _ => Except.error ()
    esCurl := fun _ _ => Except.error (), esParse := fun _ => none
    emitFuel := 7, loopFuel := 4 }

/-- Oracles on which every backend query observes 0 messages and the
clock jumps past the bound after the first sleep. -/
def oZero : EmitOracles :=
  { timestamp := "TS", start_time := 10, end_time := 20, clock0 := 21
    sleepClock := fun _ => 100, postClock := fun _ => 30
    fmt := fun _ => "F", cwOracle := fun _ _ => Except.ok 0
    esCurl := fun _ _ => Except.error (), esParse := fun _ => none
    emitFuel := 7, loopFuel := 2 }

/-- Oracles whose first confirmation-loop clock reading already exceeds
the bound: clock0 is 26 while end_time + timeout is 25. -/
def oLate : EmitOracles :=
  { timestamp := "TS", start_time := 10, end_time := 20, clock0 := 26
    sleepClock := fun _ => 100, postClock := fun _ => 30
    fmt := fun _ => "F", cwOracle := fun _ _ => Except.ok 0
    esCurl := fun _ _ => Except.error (), esParse := fun _ => none
    emitFuel := 200, loopFuel := 4 }

/-
Theorems.
-/


/-- A truthy optional integer is a positive value. -/
theorem truthyNat_pos {o : Option Nat} (h : truthyNat o = true) : 0 < o.getD 0 := by
  cases o with
  | none => simp [truthyNat] at h
  | some n => simp [truthyNat] at h; simpa using Nat.pos_of_ne_zero h

/-- Claim C4: the Rate Planner formulas. -/
theorem rate_planner_formulas (args : Args) (m : String) (t : Trigger) :
    (truthyNat args.messages_per_minute = true →
      mkTrigger args m = Except.ok t →
      t.total_messages = args.messages_per_minute.getD 0 * args.duration ∧
      t.delay = 60 / ((args.messages_per_minute.getD 0 : Nat) : ℚ) ∧
      t.delay = 1 / (((args.messages_per_minute.getD 0 : Nat) : ℚ) / 60)) ∧
    (truthyNat args.messages_per_minute = false →
      truthyNat args.messages_per_second = true →
      mkTrigger args m = Except.ok t →
      t.total_messages = args.messages_per_second.getD 0 * 60 * args.duration) := by
  constructor
  · intro hm hok
    simp only [mkTrigger, hm, if_true, Except.ok.injEq] at hok
    subst hok
    refine ⟨rfl, ?_, rfl⟩
    simp [one_div_div]
  · intro hm hs hok
    simp only [mkTrigger, hm, hs, if_true, Bool.false_eq_true, if_false,
      Except.ok.injEq] at hok
    subst hok
    rfl

theorem rate_planner_formulas_witness :
    tPM.total_messages = argsPM.messages_per_minute.getD 0 * argsPM.duration ∧
    tPM.delay = 60 / ((argsPM.messages_per_minute.getD 0 : Nat) : ℚ) ∧
    tPM.delay = 1 / (((argsPM.messages_per_minute.getD 0 : Nat) : ℚ) / 60) :=
  (rate_planner_formulas argsPM "MSG" tPM).1 rfl rfl

/-- Claim C5: no rate mode means exit(1) from the constructor, before any
emission. -/
theorem no_rate_fails_fast (args : Args) (m : String) (o : EmitOracles)
    (h1 : truthyNat args.messages_per_minute = false)
    (h2 : truthyNat args.messages_per_second = false) :
    mkTrigger args m = Except.error 1 ∧
    run_main args m o = some (RunExit.exited 1 []) := by
  have hmk : mkTrigger args m = Except.error 1 := by
    simp [mkTrigger, h1, h2]
  exact ⟨hmk, by simp [run_main, hmk]⟩

theorem no_rate_fails_fast_witness :
    mkTrigger argsNoRate "MSG" = Except.error 1 ∧
    run_main argsNoRate "MSG" oZero = some (RunExit.exited 1 []) :=
  no_rate_fails_fast argsNoRate "MSG" oZero rfl rfl

/-- Claim C6: both adapters pad the emission window by 60 seconds on each
side. -/
theorem adapter_window_padding (t : Trigger) (fmt : ℤ → String) (s e : ℤ) :
    (cw_query t s e).startTime = s - 60 ∧
    (cw_query t s e).endTime = e + 60 ∧
    (es_request t fmt s e).range_gte = fmt (s - 60) ∧
    (es_request t fmt s e).range_lte = fmt (e + 60) :=
  ⟨rfl, rfl, rfl, rfl⟩

/-- The emitter loop reaches exactly total when the step is positive and
divides the remaining distance, given enough fuel. -/
theorem runLogTestAux_total (pm : Bool) (msg : String) (step total : Nat)
    (hstep : 0 < if pm then 1 else step) :
    ∀ fuel count out, count ≤ total →
      (if pm then 1 else step) ∣ (total - count) →
      total - count < fuel →
      ∃ rest, runLogTestAux pm msg step total fuel count out = some (total, out ++ rest) := by
  intro fuel
  induction fuel with
  | zero => intro count out h1 h2 h3; omega
  | succ fuel ih =>
    intro count out h1 h2 h3
    by_cases hc : count < total
    · have hd : (if pm then 1 else step) ≤ total - count :=
        Nat.le_of_dvd (by omega) h2
      cases pm with
      | true =>
        simp only [if_true] at hd h2 hstep
        obtain ⟨rest, hrest⟩ := ih (count + 1) (out ++ [msg]) (by omega)
          (one_dvd _) (by omega)
        refine ⟨[msg] ++ rest, ?_⟩
        rw [runLogTestAux, if_pos hc, if_pos rfl]
        rw [hrest, List.append_assoc]
      | false =>
        simp only [if_false, Bool.false_eq_true] at hd h2 hstep
        obtain ⟨rest, hrest⟩ := ih (count + step) (out ++ List.replicate step msg)
          (by omega)
          (by
            have : total - (count + step) = total - count - step := by omega
            rw [this]
            exact Nat.dvd_sub' h2 (dvd_refl step))
          (by omega)
        refine ⟨List.replicate step msg ++ rest, ?_⟩
        rw [runLogTestAux, if_pos hc, if_neg (by simp)]
        rw [hrest, List.append_assoc]
    · have : count = total := by omega
      subst this
      exact ⟨[], by rw [runLogTestAux, if_neg hc, List.append_nil]⟩

/-- Claim C2: for a valid configuration the Message Emitter returns
exactly total_messages. -/
theorem emitter_count_equals_total (args : Args) (m : String) (t : Trigger)
    (hok : mkTrigger args m = Except.ok t) (fuel : Nat)
    (hfuel : t.total_messages < fuel) :
    ∃ out, run_log_test t fuel = some (t.total_messages, out) := by
  by_cases hm : truthyNat args.messages_per_minute
  · simp only [mkTrigger, hm, if_true, Except.ok.injEq] at hok
    subst hok
    obtain ⟨rest, hrest⟩ := runLogTestAux_total true m
      (args.messages_per_second.getD 0)
      (args.messages_per_minute.getD 0 * args.duration) (by simp)
      fuel 0 [] (by omega) (by simp) (by simpa using hfuel)
    exact ⟨rest, by simpa [run_log_test, hm] using hrest⟩
  · by_cases hs : truthyNat args.messages_per_second
    · simp only [mkTrigger, hm, hs, if_true, Bool.false_eq_true, if_false,
        Except.ok.injEq] at hok
      subst hok
      have hpos : 0 < args.messages_per_second.getD 0 := truthyNat_pos hs
      obtain ⟨rest, hrest⟩ := runLogTestAux_total false m
        (args.messages_per_second.getD 0)
        (args.messages_per_second.getD 0 * 60 * args.duration)
        (by simpa using hpos)
        fuel 0 [] (by omega)
        (by
          simp only [Nat.sub_zero]
          rw [mul_assoc]
          exact dvd_mul_right _ _)
        (by simpa using hfuel)
      refine ⟨rest, ?_⟩
      have hpm : truthyNat args.messages_per_minute = false := by
        simpa using hm
      simpa [run_log_test, hpm] using hrest
    · simp [mkTrigger, hm, hs] at hok

theorem emitter_count_equals_total_witness :
    ∃ out, run_log_test tPM 7 = some (tPM.total_messages, out) :=
  emitter_count_equals_total argsPM "MSG" tPM rfl 7 (by decide)

/-- Exceeding the time bound ends the loop with the last observed values. -/
theorem confirmLoopAux_timeout (mc : Nat) (bound end_time : ℚ)
    (tick : Nat → AdapterCall × Except Unit Nat)
    (sleepClock postClock : Nat → ℚ) (fuel k : Nat) (ct : ℚ)
    (last : Option (Nat × ℚ)) (calls : List AdapterCall) (sleeps : List ℚ)
    (h : bound < ct) :
    confirmLoopAux mc bound end_time tick sleepClock postClock (fuel + 1) k ct
        last calls sleeps
      = some { received := false, last := last, calls := calls
               sleeps := sleeps, exn := false } := by
  rw [confirmLoopAux, if_neg (not_le.mpr h)]

/-- An observation equal to the expected count ends the loop confirmed. -/
theorem confirmLoopAux_confirm (mc : Nat) (bound end_time : ℚ)
    (tick : Nat → AdapterCall × Except Unit Nat)
    (sleepClock postClock : Nat → ℚ) (fuel k : Nat) (ct : ℚ)
    (last : Option (Nat × ℚ)) (calls : List AdapterCall) (sleeps : List ℚ)
    (call : AdapterCall)
    (h : ct ≤ bound) (ht : tick k = (call, Except.ok mc)) :
    confirmLoopAux mc bound end_time tick sleepClock postClock (fuel + 1) k ct
        last calls sleeps
      = some { received := true, last := some (mc, postClock k - end_time)
               calls := calls ++ [call], sleeps := sleeps, exn := false } := by
  rw [confirmLoopAux, if_pos h, ht]
  simp

/-- A wrong observation sleeps one second and retries at the next tick. -/
theorem confirmLoopAux_retry (mc : Nat) (bound end_time : ℚ)
    (tick : Nat → AdapterCall × Except Unit Nat)
    (sleepClock postClock : Nat → ℚ) (fuel k : Nat) (ct : ℚ)
    (last : Option (Nat × ℚ)) (calls : List AdapterCall) (sleeps : List ℚ)
    (call : AdapterCall) (mr : Nat)
    (h : ct ≤ bound) (ht : tick k = (call, Except.ok mr)) (hne : mr ≠ mc) :
    confirmLoopAux mc bound end_time tick sleepClock postClock (fuel + 1) k ct
        last calls sleeps
      = confirmLoopAux mc bound end_time tick sleepClock postClock fuel (k + 1)
          (sleepClock k) (some (mr, postClock k - end_time)) (calls ++ [call])
          (sleeps ++ [1]) := by
  rw [confirmLoopAux, if_pos h, ht]
  simp [hne]

/-- A raising adapter ends the loop with the exception flag set. -/
theorem confirmLoopAux_error (mc : Nat) (bound end_time : ℚ)
    (tick : Nat → AdapterCall × Except Unit Nat)
    (sleepClock postClock : Nat → ℚ) (fuel k : Nat) (ct : ℚ)
    (last : Option (Nat × ℚ)) (calls : List AdapterCall) (sleeps : List ℚ)
    (call : AdapterCall) (u : Unit)
    (h : ct ≤ bound) (ht : tick k = (call, Except.error u)) :
    confirmLoopAux mc bound end_time tick sleepClock postClock (fuel + 1) k ct
        last calls sleeps
      = some { received := false, last := last, calls := calls ++ [call]
               sleeps := sleeps, exn := true } := by
  rw [confirmLoopAux, if_pos h, ht]

/-- Every sleep recorded by the loop lasts one second. -/
theorem confirmLoopAux_sleeps (mc : Nat) (bound end_time : ℚ)
    (tick : Nat → AdapterCall × Except Unit Nat)
    (sleepClock postClock : Nat → ℚ) :
    ∀ fuel k ct last calls sleeps, (∀ s ∈ sleeps, s = (1 : ℚ)) →
      ∀ ex, confirmLoopAux mc bound end_time tick sleepClock postClock fuel k ct
          last calls sleeps = some ex →
        ∀ s ∈ ex.sleeps, s = (1 : ℚ) := by
  intro fuel
  induction fuel with
  | zero => intro k ct last calls sleeps hs ex hex; simp [confirmLoopAux] at hex
  | succ fuel ih =>
    intro k ct last calls sleeps hs ex hex
    rw [confirmLoopAux] at hex
    by_cases hct : ct ≤ bound
    · rw [if_pos hct] at hex
      cases htick : tick k with
      | mk call res =>
        rw [htick] at hex
        cases res with
        | error u =>
          simp only [Option.some.injEq] at hex
          subst hex
          simpa using hs
        | ok mr =>
          dsimp only at hex
          by_cases hmr : mr = mc
          · rw [if_pos hmr] at hex
            simp only [Option.some.injEq] at hex
            subst hex
            simpa using hs
          · rw [if_neg hmr] at hex
            exact ih (k + 1) (sleepClock k) (some (mr, postClock k - end_time))
              (calls ++ [call]) (sleeps ++ [1])
              (by
                intro s hsmem
                rcases List.mem_append.mp hsmem with h1 | h1
                · exact hs s h1
                · simpa using h1)
              ex hex
    · rw [if_neg hct] at hex
      simp only [Option.some.injEq] at hex
      subst hex
      simpa using hs

/-- Claim C1: the transition rule of the Confirmation Loop.  While the
current clock is within end_time + timeout the active adapter is queried
over the truncated emission window; an observation equal to the emitted
count ends the loop confirmed, any other observation sleeps one second
and retries, and a clock beyond the bound ends the loop timed out with
the last observed values. -/
theorem confirmation_loop_transition_rule (t : Trigger) (o : EmitOracles)
    (mc : Nat) (bound end_time : ℚ)
    (tick : Nat → AdapterCall × Except Unit Nat)
    (sleepClock postClock : Nat → ℚ) (fuel k : Nat) (ct : ℚ)
    (last : Option (Nat × ℚ)) (calls : List AdapterCall) (sleeps : List ℚ) :
    (bound < ct →
      confirmLoopAux mc bound end_time tick sleepClock postClock (fuel + 1) k
          ct last calls sleeps
        = some { received := false, last := last, calls := calls
                 sleeps := sleeps, exn := false }) ∧
    (∀ call, ct ≤ bound → tick k = (call, Except.ok mc) →
      confirmLoopAux mc bound end_time tick sleepClock postClock (fuel + 1) k
          ct last calls sleeps
        = some { received := true, last := some (mc, postClock k - end_time)
                 calls := calls ++ [call], sleeps := sleeps, exn := false }) ∧
    (∀ call mr, ct ≤ bound → tick k = (call, Except.ok mr) → mr ≠ mc →
      confirmLoopAux mc bound end_time tick sleepClock postClock (fuel + 1) k
          ct last calls sleeps
        = confirmLoopAux mc bound end_time tick sleepClock postClock fuel
            (k + 1) (sleepClock k) (some (mr, postClock k - end_time))
            (calls ++ [call]) (sleeps ++ [1])) ∧
    ((∀ s ∈ sleeps, s = (1 : ℚ)) →
      ∀ ex, confirmLoopAux mc bound end_time tick sleepClock postClock fuel k
          ct last calls sleeps = some ex →
        ∀ s ∈ ex.sleeps, s = (1 : ℚ)) ∧
    ((adapterTick t o k).1 =
      if truthyStr t.args.cloudwatch_log_group then
        AdapterCall.cw (cw_query t (pyInt o.start_time) (pyInt o.end_time))
      else
        AdapterCall.es (es_request t o.fmt (pyInt o.start_time)
          (pyInt o.end_time))) := by
  refine ⟨?_, ?_, ?_, ?_, ?_⟩
  · intro h
    exact confirmLoopAux_timeout mc bound end_time tick sleepClock postClock
      fuel k ct last calls sleeps h
  · intro call h ht
    exact confirmLoopAux_confirm mc bound end_time tick sleepClock postClock
      fuel k ct last calls sleeps call h ht
  · intro call mr h ht hne
    exact confirmLoopAux_retry mc bound end_time tick sleepClock postClock
      fuel k ct last calls sleeps call mr h ht hne
  · exact confirmLoopAux_sleeps mc bound end_time tick sleepClock postClock
      fuel k ct last calls sleeps
  · by_cases hcw : truthyStr t.args.cloudwatch_log_group
    · simp [adapterTick, hcw]
    · simp [adapterTick, hcw]

theorem confirmation_loop_transition_rule_witness :
    confirmLoopAux 6 25 20 (adapterTick tPM oZero) oZero.sleepClock
        oZero.postClock (0 + 1) 0 26 none [] []
      = some { received := false, last := none, calls := []
               sleeps := [], exn := false } :=
  (confirmation_loop_transition_rule tPM oZero 6 25 20 (adapterTick tPM oZero)
    oZero.sleepClock oZero.postClock 0 0 26 none [] []).1 (by norm_num)

/-- Claim C7: a timed-out confirmation still yields exactly one result
record, with messages_confirmed_received false, the last observed count
and the elapsed post_complete_time. -/
theorem timeout_yields_result_record (t : Trigger) (o : EmitOracles)
    (mcnt : Nat) (out : List String) (mr : Nat) (pt : ℚ)
    (calls : List AdapterCall) (sleeps : List ℚ)
    (hb : (truthyStr t.args.cloudwatch_log_group || truthyStr t.args.es_url) = true)
    (hrun : run_log_test t o.emitFuel = some (mcnt, out))
    (hloop : confirmLoopAux mcnt (o.end_time + t.args.timeout) o.end_time
        (adapterTick t o) o.sleepClock o.postClock o.loopFuel 0 o.clock0 none
        [] []
      = some { received := false, last := some (mr, pt), calls := calls
               sleeps := sleeps, exn := false }) :
    emit_actions t o
      = some { emissions := out
               yields :=
                 [(json_payload t
                     { timestamp := o.timestamp
                       actual_duration := pyInt (o.end_time - o.start_time)
                       message_count := mcnt
                       messages_confirmed_received := some false
                       messages_received := some mr
                       post_complete_time := some (pyInt pt) }, "results")]
               calls := calls, sleeps := sleeps, exn := none } := by
  rw [emit_actions, hrun]
  dsimp only
  rw [if_pos hb, hloop]
  rfl

theorem timeout_yields_result_record_witness :
    emit_actions tPM oZero
      = some { emissions := List.replicate 6 "MSG"
               yields :=
                 [(json_payload tPM
                     { timestamp := oZero.timestamp
                       actual_duration := pyInt (oZero.end_time - oZero.start_time)
                       message_count := 6
                       messages_confirmed_received := some false
                       messages_received := some 0
                       post_complete_time := some (pyInt (oZero.postClock 0 - oZero.end_time)) },
                   "results")]
               calls := [AdapterCall.cw (cw_query tPM (pyInt oZero.start_time)
                           (pyInt oZero.end_time))]
               sleeps := [1], exn := none } := by
  refine timeout_yields_result_record tPM oZero 6 (List.replicate 6 "MSG") 0
    (oZero.postClock 0 - oZero.end_time)
    [AdapterCall.cw (cw_query tPM (pyInt oZero.start_time) (pyInt oZero.end_time))]
    [1] rfl rfl ?_
  have h1 : oZero.loopFuel = 1 + 1 := rfl
  rw [h1]
  rw [confirmLoopAux_retry 6 (oZero.end_time + tPM.args.timeout) oZero.end_time
    (adapterTick tPM oZero) oZero.sleepClock oZero.postClock 1 0 oZero.clock0
    none [] []
    (AdapterCall.cw (cw_query tPM (pyInt oZero.start_time) (pyInt oZero.end_time)))
    0 (by norm_num [oZero, tPM, argsPM]) rfl (by norm_num)]
  exact confirmLoopAux_timeout 6 (oZero.end_time + tPM.args.timeout) oZero.end_time
    (adapterTick tPM oZero) oZero.sleepClock oZero.postClock 0 1
    (oZero.sleepClock 0)
    (some (0, oZero.postClock 0 - oZero.end_time))
    [AdapterCall.cw (cw_query tPM (pyInt oZero.start_time) (pyInt oZero.end_time))]
    [1] (by norm_num [oZero, tPM, argsPM])

/-- Claim C8: with no backend configured the run performs no adapter
query and the single record carries no confirmation entries, while every
other entry is present unchanged. -/
theorem no_backend_no_confirmation (t : Trigger) (o : EmitOracles)
    (mcnt : Nat) (out : List String)
    (hcw : truthyStr t.args.cloudwatch_log_group = false)
    (hes : truthyStr t.args.es_url = false)
    (hrun : run_log_test t o.emitFuel = some (mcnt, out)) :
    emit_actions t o
      = some { emissions := out
               yields :=
                 [(json_payload t
                     { timestamp := o.timestamp
                       actual_duration := pyInt (o.end_time - o.start_time)
                       message_count := mcnt
                       messages_confirmed_received := none
                       messages_received := none
                       post_complete_time := none }, "results")]
               calls := [], sleeps := [], exn := none } ∧
    (∀ d : ResultData,
      (json_payload t d).uuid = t.args.uuid ∧
      (json_payload t d).cluster_name = t.args.cluster_name ∧
      (json_payload t d).pod_name = t.args.pod_name ∧
      (json_payload t d).expected_duration = t.args.duration * 60 ∧
      (json_payload t d).total_expected_messages = t.total_messages ∧
      (json_payload t d).messages_per_second = t.messages_per_second ∧
      (json_payload t d).messages_per_minute = t.args.messages_per_minute ∧
      (json_payload t d).message_size = t.args.size ∧
      (json_payload t d).timeout = t.args.timeout ∧
      (json_payload t d).pod_count = t.args.pod_count ∧
      (json_payload t d).user = t.args.user ∧
      (json_payload t d).data = d) := by
  constructor
  · rw [emit_actions, hrun]
    dsimp only
    rw [if_neg (by simp [hcw, hes])]
  · intro d
    exact ⟨rfl, rfl, rfl, rfl, rfl, rfl, rfl, rfl, rfl, rfl, rfl, rfl⟩

theorem no_backend_no_confirmation_witness :
    emit_actions tNB oZero
      = some { emissions := List.replicate 6 "MSG"
               yields :=
                 [(json_payload tNB
                     { timestamp := oZero.timestamp
                       actual_duration := pyInt (oZero.end_time - oZero.start_time)
                       message_count := 6
                       messages_confirmed_received := none
                       messages_received := none
                       post_complete_time := none }, "results")]
               calls := [], sleeps := [], exn := none } ∧
    (∀ d : ResultData,
      (json_payload tNB d).uuid = tNB.args.uuid ∧
      (json_payload tNB d).cluster_name = tNB.args.cluster_name ∧
      (json_payload tNB d).pod_name = tNB.args.pod_name ∧
      (json_payload tNB d).expected_duration = tNB.args.duration * 60 ∧
      (json_payload tNB d).total_expected_messages = tNB.total_messages ∧
      (json_payload tNB d).messages_per_second = tNB.messages_per_second ∧
      (json_payload tNB d).messages_per_minute = tNB.args.messages_per_minute ∧
      (json_payload tNB d).message_size = tNB.args.size ∧
      (json_payload tNB d).timeout = tNB.args.timeout ∧
      (json_payload tNB d).pod_count = tNB.args.pod_count ∧
      (json_payload tNB d).user = tNB.args.user ∧
      (json_payload tNB d).data = d) :=
  no_backend_no_confirmation tNB oZero 6 (List.replicate 6 "MSG") rfl rfl rfl

/-- Claim C9: with a backend configured, a first clock reading beyond
end_time + timeout makes the loop body never run, so the later reads of
the confirmation variables raise NameError and nothing is yielded. -/
theorem zero_tick_confirmation_unbound (t : Trigger) (o : EmitOracles)
    (mcnt : Nat) (out : List String)
    (hb : (truthyStr t.args.cloudwatch_log_group || truthyStr t.args.es_url) = true)
    (hrun : run_log_test t o.emitFuel = some (mcnt, out))
    (hfuel : 0 < o.loopFuel)
    (hlate : o.end_time + t.args.timeout < o.clock0) :
    emit_actions t o
      = some { emissions := out, yields := [], calls := [], sleeps := []
               exn := some PyExn.nameError } := by
  rw [emit_actions, hrun]
  dsimp only
  rw [if_pos hb]
  obtain ⟨f, hf⟩ : ∃ f, o.loopFuel = f + 1 := ⟨o.loopFuel - 1, by omega⟩
  rw [hf, confirmLoopAux_timeout mcnt (o.end_time + t.args.timeout) o.end_time
    (adapterTick t o) o.sleepClock o.postClock f 0 o.clock0 none [] [] hlate]
  rfl

theorem zero_tick_confirmation_unbound_witness :
    emit_actions tPM oLate
      = some { emissions := List.replicate 6 "MSG", yields := [], calls := []
               sleeps := [], exn := some PyExn.nameError } :=
  zero_tick_confirmation_unbound tPM oLate 6 (List.replicate 6 "MSG") rfl rfl
    (by decide) (by norm_num [oLate, tPM, argsPM])

/-- Any property of the ticks is a property of every recorded backend
call. -/
theorem confirmLoopAux_calls (mc : Nat) (bound end_time : ℚ)
    (tick : Nat → AdapterCall × Except Unit Nat)
    (sleepClock postClock : Nat → ℚ) (P : AdapterCall → Prop)
    (hP : ∀ k, P (tick k).1) :
    ∀ fuel k ct last calls sleeps, (∀ c ∈ calls, P c) →
      ∀ ex, confirmLoopAux mc bound end_time tick sleepClock postClock fuel k
          ct last calls sleeps = some ex →
        ∀ c ∈ ex.calls, P c := by
  intro fuel
  induction fuel with
  | zero => intro k ct last calls sleeps hc ex hex; simp [confirmLoopAux] at hex
  | succ fuel ih =>
    intro k ct last calls sleeps hc ex hex
    have hext : ∀ c ∈ calls ++ [(tick k).1], P c := by
      intro c hmem
      rcases List.mem_append.mp hmem with h1 | h1
      · exact hc c h1
      · rw [List.mem_singleton.mp h1]; exact hP k
    rw [confirmLoopAux] at hex
    by_cases hct : ct ≤ bound
    · rw [if_pos hct] at hex
      cases htick : tick k with
      | mk call res =>
        rw [htick] at hex
        have hcall : call = (tick k).1 := by rw [htick]
        cases res with
        | error u =>
          simp only [Option.some.injEq] at hex
          subst hex
          simpa [hcall] using hext
        | ok mr =>
          dsimp only at hex
          by_cases hmr : mr = mc
          · rw [if_pos hmr] at hex
            simp only [Option.some.injEq] at hex
            subst hex
            simpa [hcall] using hext
          · rw [if_neg hmr] at hex
            exact ih (k + 1) (sleepClock k) (some (mr, postClock k - end_time))
              (calls ++ [call]) (sleeps ++ [1]) (by simpa [hcall] using hext)
              ex hex
    · rw [if_neg hct] at hex
      simp only [Option.some.injEq] at hex
      subst hex
      simpa using hc

/-- Claim C10: when both backends are configured, only the CloudWatch
adapter is ever queried and the record is tagged with the CloudWatch
fields; no ElasticSearch field appears. -/
theorem cloudwatch_precedence (t : Trigger) (o : EmitOracles) (r : EmitResult)
    (hcw : truthyStr t.args.cloudwatch_log_group = true)
    (_hes : truthyStr t.args.es_url = true)
    (h : emit_actions t o = some r) :
    (∀ c ∈ r.calls,
      c = AdapterCall.cw (cw_query t (pyInt o.start_time) (pyInt o.end_time))) ∧
    (∀ p i, (p, i) ∈ r.yields →
      p.backend = some "cloudwatch" ∧
      p.cloudwatch_log_group = t.args.cloudwatch_log_group ∧
      p.es_url = none ∧ p.es_index = none) := by
  have hP : ∀ k, (adapterTick t o k).1
      = AdapterCall.cw (cw_query t (pyInt o.start_time) (pyInt o.end_time)) := by
    intro k
    simp [adapterTick, hcw]
  rw [emit_actions] at h
  cases hrun : run_log_test t o.emitFuel with
  | none => rw [hrun] at h; simp at h
  | some mo =>
    rw [hrun] at h
    cases mo with
    | mk mcnt out =>
      dsimp only at h
      rw [if_pos (by simp [hcw])] at h
      cases hloop : confirmLoopAux mcnt (o.end_time + t.args.timeout) o.end_time
          (adapterTick t o) o.sleepClock o.postClock o.loopFuel 0 o.clock0
          none [] [] with
      | none => rw [hloop] at h; simp at h
      | some ex =>
        rw [hloop] at h
        dsimp only at h
        have hcalls : ∀ c ∈ ex.calls,
            c = AdapterCall.cw (cw_query t (pyInt o.start_time) (pyInt o.end_time)) :=
          confirmLoopAux_calls mcnt (o.end_time + t.args.timeout) o.end_time
            (adapterTick t o) o.sleepClock o.postClock _ hP o.loopFuel 0
            o.clock0 none [] [] (by simp) ex hloop
        by_cases hexn : ex.exn = true
        · rw [if_pos hexn] at h
          simp only [Option.some.injEq] at h
          subst h
          exact ⟨hcalls, by simp⟩
        · rw [if_neg hexn] at h
          cases hlast : ex.last with
          | none =>
            rw [hlast] at h
            simp only [Option.some.injEq] at h
            subst h
            exact ⟨hcalls, by simp⟩
          | some mpt =>
            cases mpt with
            | mk mr pt =>
              rw [hlast] at h
              simp only [Option.some.injEq] at h
              subst h
              refine ⟨hcalls, ?_⟩
              intro p i hmem
              simp only [List.mem_singleton, Prod.mk.injEq] at hmem
              rw [hmem.1]
              refine ⟨?_, ?_, ?_, ?_⟩ <;> simp [json_payload, hcw]

/-- On oErr the CloudWatch query of the first tick raises; emit_actions
aborts with the uncaught exception and yields nothing. -/
theorem emit_actions_tPM_oErr :
    emit_actions tPM oErr
      = some { emissions := List.replicate 6 "MSG", yields := []
               calls := [AdapterCall.cw (cw_query tPM (pyInt oErr.start_time)
                           (pyInt oErr.end_time))]
               sleeps := [], exn := some PyExn.adapterError } := by
  rw [emit_actions]
  rw [show run_log_test tPM oErr.emitFuel = some (6, List.replicate 6 "MSG")
    from rfl]
  dsimp only
  rw [if_pos (show (truthyStr tPM.args.cloudwatch_log_group
    || truthyStr tPM.args.es_url) = true from rfl)]
  have hf : oErr.loopFuel = 3 + 1 := rfl
  rw [hf, confirmLoopAux_error 6 (oErr.end_time + tPM.args.timeout)
    oErr.end_time (adapterTick tPM oErr) oErr.sleepClock oErr.postClock 3 0
    oErr.clock0 none [] []
    (AdapterCall.cw (cw_query tPM (pyInt oErr.start_time) (pyInt oErr.end_time)))
    () (by norm_num [oErr, tPM, argsPM]) rfl]
  rfl

theorem cloudwatch_precedence_witness :
    (∀ c ∈ [AdapterCall.cw (cw_query tPM (pyInt oErr.start_time)
              (pyInt oErr.end_time))],
      c = AdapterCall.cw (cw_query tPM (pyInt oErr.start_time)
            (pyInt oErr.end_time))) ∧
    (∀ p i, (p, i) ∈ ([] : List (Payload × String)) →
      p.backend = some "cloudwatch" ∧
      p.cloudwatch_log_group = tPM.args.cloudwatch_log_group ∧
      p.es_url = none ∧ p.es_index = none) := by
  have h := cloudwatch_precedence tPM oErr
    { emissions := List.replicate 6 "MSG", yields := []
      calls := [AdapterCall.cw (cw_query tPM (pyInt oErr.start_time)
                  (pyInt oErr.end_time))]
      sleeps := [], exn := some PyExn.adapterError } rfl rfl
    emit_actions_tPM_oErr
  exact h

/-- When no tick can raise, the loop never ends with the exception
flag. -/
theorem confirmLoopAux_no_exn (mc : Nat) (bound end_time : ℚ)
    (tick : Nat → AdapterCall × Except Unit Nat)
    (sleepClock postClock : Nat → ℚ)
    (htick : ∀ k, ∃ n, (tick k).2 = Except.ok n) :
    ∀ fuel k ct last calls sleeps ex,
      confirmLoopAux mc bound end_time tick sleepClock postClock fuel k ct last
          calls sleeps = some ex →
        ex.exn = false := by
  intro fuel
  induction fuel with
  | zero => intro k ct last calls sleeps ex hex; simp [confirmLoopAux] at hex
  | succ fuel ih =>
    intro k ct last calls sleeps ex hex
    rw [confirmLoopAux] at hex
    by_cases hct : ct ≤ bound
    · rw [if_pos hct] at hex
      obtain ⟨n, hn⟩ := htick k
      cases htk : tick k with
      | mk call res =>
        rw [htk] at hex
        cases res with
        | error u => rw [htk] at hn; simp at hn
        | ok mr =>
          dsimp only at hex
          by_cases hmr : mr = mc
          · rw [if_pos hmr] at hex
            simp only [Option.some.injEq] at hex
            subst hex
            rfl
          · rw [if_neg hmr] at hex
            exact ih (k + 1) (sleepClock k) (some (mr, postClock k - end_time))
              (calls ++ [call]) (sleeps ++ [1]) ex hex
    · rw [if_neg hct] at hex
      simp only [Option.some.injEq] at hex
      subst hex
      rfl

/-- Claim C3, counterexample: on a CloudWatch-backed run whose first
query raises, the run aborts with the uncaught exception and yields no
record, instead of observing a zero count and retrying. -/
theorem cloudwatch_failure_aborts_run :
    emit_actions tPM oErr
      = some { emissions := List.replicate 6 "MSG", yields := []
               calls := [AdapterCall.cw (cw_query tPM (pyInt oErr.start_time)
                           (pyInt oErr.end_time))]
               sleeps := [], exn := some PyExn.adapterError } :=
  emit_actions_tPM_oErr

/-- Claim C3, amended: only the document-search adapter absorbs
failures.  A transport failure or an unparsable response makes _check_es
observe 0 for that tick, and a run whose confirmation queries go through
_check_es never aborts on an adapter error; the CloudWatch adapter has
no handler, so its failures propagate. -/
theorem adapter_failure_handling :
    (∀ (t : Trigger) (fmt : ℤ → String) (curl : ESRequest → Except Unit String)
        (parseCount : String → Option Nat) (s e : ℤ) (u : Unit),
      curl (es_request t fmt s e) = Except.error u →
      check_es t fmt curl parseCount s e = 0) ∧
    (∀ (t : Trigger) (fmt : ℤ → String) (curl : ESRequest → Except Unit String)
        (parseCount : String → Option Nat) (s e : ℤ) (body : String),
      curl (es_request t fmt s e) = Except.ok body → parseCount body = none →
      check_es t fmt curl parseCount s e = 0) ∧
    (∀ (t : Trigger) (o : EmitOracles) (r : EmitResult),
      truthyStr t.args.cloudwatch_log_group = false →
      emit_actions t o = some r → r.exn ≠ some PyExn.adapterError) := by
  refine ⟨?_, ?_, ?_⟩
  · intro t fmt curl parseCount s e u hcurl
    rw [check_es, hcurl]
  · intro t fmt curl parseCount s e body hcurl hparse
    rw [check_es, hcurl]
    dsimp only
    rw [hparse]
  · intro t o r hcw h
    have htick : ∀ k, ∃ n, (adapterTick t o k).2 = Except.ok n := by
      intro k
      refine ⟨check_es t o.fmt (o.esCurl k) o.esParse (pyInt o.start_time)
        (pyInt o.end_time), ?_⟩
      simp [adapterTick, hcw]
    rw [emit_actions] at h
    cases hrun : run_log_test t o.emitFuel with
    | none => rw [hrun] at h; simp at h
    | some mo =>
      rw [hrun] at h
      cases mo with
      | mk mcnt out =>
        dsimp only at h
        by_cases hbe : (truthyStr t.args.cloudwatch_log_group
            || truthyStr t.args.es_url) = true
        · rw [if_pos hbe] at h
          cases hloop : confirmLoopAux mcnt (o.end_time + t.args.timeout)
              o.end_time (adapterTick t o) o.sleepClock o.postClock o.loopFuel
              0 o.clock0 none [] [] with
          | none => rw [hloop] at h; simp at h
          | some ex =>
            rw [hloop] at h
            dsimp only at h
            have hexn : ex.exn = false :=
              confirmLoopAux_no_exn mcnt (o.end_time + t.args.timeout)
                o.end_time (adapterTick t o) o.sleepClock o.postClock htick
                o.loopFuel 0 o.clock0 none [] [] ex hloop
            rw [hexn] at h
            rw [if_neg (by simp)] at h
            cases hlast : ex.last with
            | none =>
              rw [hlast] at h
              simp only [Option.some.injEq] at h
              subst h
              simp
            | some mpt =>
              cases mpt with
              | mk mr pt =>
                rw [hlast] at h
                simp only [Option.some.injEq] at h
                subst h
                simp
        · rw [if_neg hbe] at h
          simp only [Option.some.injEq] at h
          subst h
          simp

theorem adapter_failure_handling_witness :
    check_es tPS (fun _ => "F") (fun _ => Except.error ()) (fun _ => none)
        (pyInt oErr.start_time) (pyInt oErr.end_time) = 0 :=
  adapter_failure_handling.1 tPS (fun _ => "F") (fun _ => Except.error ())
    (fun _ => none) (pyInt oErr.start_time) (pyInt oErr.end_time) () rfl

end LogGenerator
